import Mathlib

/- Verification development for the rccopy copy-verify pipeline (src/src/main.rs).

   Modelling conventions:
   * bytes are natural numbers, reduced mod 256 at every use site (u8 semantics);
   * 32-bit and 64-bit machine arithmetic is Nat arithmetic with explicit
     reduction mod 2^32 / 2^64;
   * the three incremental hash engines (the md5, sha1 and xxhash-rust crates
     driven through the HashMethod enum of main.rs) are modelled as streaming
     states: a per-byte absorb step buffers input and compresses full blocks,
     which is exactly the observable state evolution of the crates' update
     functions, and h.update(chunk) is the left fold of the absorb step. -/

def M32 : Nat := 2 ^ 32
def M64 : Nat := 2 ^ 64

def rotl32 (x n : Nat) : Nat := ((x % M32) * 2 ^ n + (x % M32) / 2 ^ (32 - n)) % M32

def rotl64 (x n : Nat) : Nat := ((x % M64) * 2 ^ n + (x % M64) / 2 ^ (64 - n)) % M64

def not32 (x : Nat) : Nat := (M32 - 1) - (x % M32)

def byteAt (bs : List Nat) (i : Nat) : Nat := bs.getD i 0 % 256

def leWord32 (bs : List Nat) (j : Nat) : Nat :=
  byteAt bs (4 * j) + 2 ^ 8 * byteAt bs (4 * j + 1) +
  2 ^ 16 * byteAt bs (4 * j + 2) + 2 ^ 24 * byteAt bs (4 * j + 3)

def beWord32 (bs : List Nat) (j : Nat) : Nat :=
  2 ^ 24 * byteAt bs (4 * j) + 2 ^ 16 * byteAt bs (4 * j + 1) +
  2 ^ 8 * byteAt bs (4 * j + 2) + byteAt bs (4 * j + 3)

def leWord64At (bs : List Nat) (j : Nat) : Nat :=
  byteAt bs (8 * j) + 2 ^ 8 * byteAt bs (8 * j + 1) +
  2 ^ 16 * byteAt bs (8 * j + 2) + 2 ^ 24 * byteAt bs (8 * j + 3) +
  2 ^ 32 * byteAt bs (8 * j + 4) + 2 ^ 40 * byteAt bs (8 * j + 5) +
  2 ^ 48 * byteAt bs (8 * j + 6) + 2 ^ 56 * byteAt bs (8 * j + 7)

def le32 (w : Nat) : List Nat :=
  [w % 256, w / 2 ^ 8 % 256, w / 2 ^ 16 % 256, w / 2 ^ 24 % 256]

def be32 (w : Nat) : List Nat :=
  [w / 2 ^ 24 % 256, w / 2 ^ 16 % 256, w / 2 ^ 8 % 256, w % 256]

def le64 (w : Nat) : List Nat :=
  [w % 256, w / 2 ^ 8 % 256, w / 2 ^ 16 % 256, w / 2 ^ 24 % 256,
   w / 2 ^ 32 % 256, w / 2 ^ 40 % 256, w / 2 ^ 48 % 256, w / 2 ^ 56 % 256]

def be64 (w : Nat) : List Nat :=
  [w / 2 ^ 56 % 256, w / 2 ^ 48 % 256, w / 2 ^ 40 % 256, w / 2 ^ 32 % 256,
   w / 2 ^ 24 % 256, w / 2 ^ 16 % 256, w / 2 ^ 8 % 256, w % 256]

/- MD5 (RFC 1321), the engine behind HashMethod::Md5. -/

structure Md5State where
  a : Nat
  b : Nat
  c : Nat
  d : Nat
  buf : List Nat
  len : Nat
deriving DecidableEq

def md5Init : Md5State :=
  { a := 0x67452301, b := 0xefcdab89, c := 0x98badcfe, d := 0x10325476, buf := [], len := 0 }

def md5K : List Nat :=
  [0xd76aa478, 0xe8c7b756, 0x242070db, 0xc1bdceee,
   0xf57c0faf, 0x4787c62a, 0xa8304613, 0xfd469501,
   0x698098d8, 0x8b44f7af, 0xffff5bb1, 0x895cd7be,
   0x6b901122, 0xfd987193, 0xa679438e, 0x49b40821,
   0xf61e2562, 0xc040b340, 0x265e5a51, 0xe9b6c7aa,
   0xd62f105d, 0x02441453, 0xd8a1e681, 0xe7d3fbc8,
   0x21e1cde6, 0xc33707d6, 0xf4d50d87, 0x455a14ed,
   0xa9e3e905, 0xfcefa3f8, 0x676f02d9, 0x8d2a4c8a,
   0xfffa3942, 0x8771f681, 0x6d9d6122, 0xfde5380c,
   0xa4beea44, 0x4bdecfa9, 0xf6bb4b60, 0xbebfbc70,
   0x289b7ec6, 0xeaa127fa, 0xd4ef3085, 0x04881d05,
   0xd9d4d039, 0xe6db99e5, 0x1fa27cf8, 0xc4ac5665,
   0xf4292244, 0x432aff97, 0xab9423a7, 0xfc93a039,
   0x655b59c3, 0x8f0ccc92, 0xffeff47d, 0x85845dd1,
   0x6fa87e4f, 0xfe2ce6e0, 0xa3014314, 0x4e0811a1,
   0xf7537e82, 0xbd3af235, 0x2ad7d2bb, 0xeb86d391]

def md5S : List Nat :=
  [7, 12, 17, 22, 7, 12, 17, 22, 7, 12, 17, 22, 7, 12, 17, 22,
   5, 9, 14, 20, 5, 9, 14, 20, 5, 9, 14, 20, 5, 9, 14, 20,
   4, 11, 16, 23, 4, 11, 16, 23, 4, 11, 16, 23, 4, 11, 16, 23,
   6, 10, 15, 21, 6, 10, 15, 21, 6, 10, 15, 21, 6, 10, 15, 21]

def md5G (i : Nat) : Nat :=
  if i < 16 then i
  else if i < 32 then (5 * i + 1) % 16
  else if i < 48 then (3 * i + 5) % 16
  else (7 * i) % 16

def md5F (i b c d : Nat) : Nat :=
  if i < 16 then (b &&& c) ||| (not32 b &&& d)
  else if i < 32 then (d &&& b) ||| (not32 d &&& c)
  else if i < 48 then b ^^^ c ^^^ d
  else c ^^^ (b ||| not32 d)

def md5Round (block : List Nat) (s : Nat × Nat × Nat × Nat) (i : Nat) : Nat × Nat × Nat × Nat :=
  let f := (md5F i s.2.1 s.2.2.1 s.2.2.2 + s.1 + md5K.getD i 0 + leWord32 block (md5G i)) % M32
  (s.2.2.2, (s.2.1 + rotl32 f (md5S.getD i 0)) % M32, s.2.1, s.2.2.1)

def md5Compress (st : Md5State) (block : List Nat) : Md5State :=
  let r := (List.range 64).foldl (md5Round block) (st.a, st.b, st.c, st.d)
  { a := (st.a + r.1) % M32, b := (st.b + r.2.1) % M32,
    c := (st.c + r.2.2.1) % M32, d := (st.d + r.2.2.2) % M32,
    buf := [], len := st.len }

def md5Absorb (st : Md5State) (x : Nat) : Md5State :=
  let buf := st.buf ++ [x]
  if buf.length = 64 then md5Compress { st with len := st.len + 1 } buf
  else { st with buf := buf, len := st.len + 1 }

def md5Pad (len : Nat) : List Nat :=
  0x80 :: (List.replicate ((120 - (len + 1) % 64) % 64) 0 ++ le64 (len * 8 % M64))

def md5Finalize (st : Md5State) : List Nat :=
  let f := (md5Pad st.len).foldl md5Absorb st
  le32 f.a ++ le32 f.b ++ le32 f.c ++ le32 f.d

/- SHA-1 (FIPS 180), the engine behind HashMethod::Sha1. -/

structure Sha1State where
  h0 : Nat
  h1 : Nat
  h2 : Nat
  h3 : Nat
  h4 : Nat
  buf : List Nat
  len : Nat
deriving DecidableEq

def sha1Init : Sha1State :=
  { h0 := 0x67452301, h1 := 0xEFCDAB89, h2 := 0x98BADCFE, h3 := 0x10325476, h4 := 0xC3D2E1F0,
    buf := [], len := 0 }

def sha1W (block : List Nat) : List Nat :=
  (List.range 80).foldl (fun ws i =>
    ws ++ [if i < 16 then beWord32 block i
           else rotl32 (ws.getD (i - 3) 0 ^^^ ws.getD (i - 8) 0 ^^^
                        ws.getD (i - 14) 0 ^^^ ws.getD (i - 16) 0) 1]) []

def sha1F (i b c d : Nat) : Nat :=
  if i < 20 then (b &&& c) ||| (not32 b &&& d)
  else if i < 40 then b ^^^ c ^^^ d
  else if i < 60 then (b &&& c) ||| (b &&& d) ||| (c &&& d)
  else b ^^^ c ^^^ d

def sha1KOf (i : Nat) : Nat :=
  if i < 20 then 0x5A827999
  else if i < 40 then 0x6ED9EBA1
  else if i < 60 then 0x8F1BBCDC
  else 0xCA62C1D6

def sha1Round (w : List Nat) (s : Nat × Nat × Nat × Nat × Nat) (i : Nat) :
    Nat × Nat × Nat × Nat × Nat :=
  let temp := (rotl32 s.1 5 + sha1F i s.2.1 s.2.2.1 s.2.2.2.1 + s.2.2.2.2 +
               sha1KOf i + w.getD i 0) % M32
  (temp, s.1, rotl32 s.2.1 30, s.2.2.1, s.2.2.2.1)

def sha1Compress (st : Sha1State) (block : List Nat) : Sha1State :=
  let w := sha1W block
  let r := (List.range 80).foldl (sha1Round w) (st.h0, st.h1, st.h2, st.h3, st.h4)
  { h0 := (st.h0 + r.1) % M32, h1 := (st.h1 + r.2.1) % M32, h2 := (st.h2 + r.2.2.1) % M32,
    h3 := (st.h3 + r.2.2.2.1) % M32, h4 := (st.h4 + r.2.2.2.2) % M32,
    buf := [], len := st.len }

def sha1Absorb (st : Sha1State) (x : Nat) : Sha1State :=
  let buf := st.buf ++ [x]
  if buf.length = 64 then sha1Compress { st with len := st.len + 1 } buf
  else { st with buf := buf, len := st.len + 1 }

def sha1Pad (len : Nat) : List Nat :=
  0x80 :: (List.replicate ((120 - (len + 1) % 64) % 64) 0 ++ be64 (len * 8 % M64))

def sha1Finalize (st : Sha1State) : List Nat :=
  let f := (sha1Pad st.len).foldl sha1Absorb st
  be32 f.h0 ++ be32 f.h1 ++ be32 f.h2 ++ be32 f.h3 ++ be32 f.h4

/- xxHash64 with seed 0 (Xxh64::new(0) of xxhash-rust). -/

def xxhP1 : Nat := 0x9E3779B185EBCA87
def xxhP2 : Nat := 0xC2B2AE3D27D4EB4F
def xxhP3 : Nat := 0x165667B19E3779F9
def xxhP4 : Nat := 0x85EBCA77C2B2AE63
def xxhP5 : Nat := 0x27D4EB2F165667C5

structure Xxh64State where
  v1 : Nat
  v2 : Nat
  v3 : Nat
  v4 : Nat
  buf : List Nat
  len : Nat
deriving DecidableEq

def xxh64Init : Xxh64State :=
  { v1 := (xxhP1 + xxhP2) % M64, v2 := xxhP2, v3 := 0, v4 := (M64 - xxhP1) % M64,
    buf := [], len := 0 }

def xxhRound (acc w : Nat) : Nat :=
  rotl64 ((acc + w % M64 * xxhP2) % M64) 31 * xxhP1 % M64

def xxhAbsorb (st : Xxh64State) (x : Nat) : Xxh64State :=
  let buf := st.buf ++ [x]
  if buf.length = 32 then
    { v1 := xxhRound st.v1 (leWord64At buf 0), v2 := xxhRound st.v2 (leWord64At buf 1),
      v3 := xxhRound st.v3 (leWord64At buf 2), v4 := xxhRound st.v4 (leWord64At buf 3),
      buf := [], len := st.len + 1 }
  else { st with buf := buf, len := st.len + 1 }

def xxhMerge (h v : Nat) : Nat :=
  ((h ^^^ xxhRound 0 v) * xxhP1 % M64 + xxhP4) % M64

def xxhTail8 (h : Nat) : List Nat → Nat × List Nat
  | b0 :: b1 :: b2 :: b3 :: b4 :: b5 :: b6 :: b7 :: rest =>
      xxhTail8 ((rotl64 (h ^^^ xxhRound 0 (leWord64At [b0, b1, b2, b3, b4, b5, b6, b7] 0)) 27 *
                 xxhP1 % M64 + xxhP4) % M64) rest
  | bs => (h, bs)

def xxhTail4 (p : Nat × List Nat) : Nat × List Nat :=
  match p with
  | (h, b0 :: b1 :: b2 :: b3 :: rest) =>
      ((rotl64 (h ^^^ leWord32 [b0, b1, b2, b3] 0 * xxhP1 % M64) 23 * xxhP2 % M64 + xxhP3) % M64,
       rest)
  | (h, bs) => (h, bs)

def xxhTailBytes (p : Nat × List Nat) : Nat :=
  p.2.foldl (fun h b => rotl64 (h ^^^ b % 256 * xxhP5 % M64) 11 * xxhP1 % M64) p.1

def xxhAvalanche (h : Nat) : Nat :=
  let h1 := (h ^^^ (h / 2 ^ 33)) % M64
  let h2 := h1 * xxhP2 % M64
  let h3 := (h2 ^^^ (h2 / 2 ^ 29)) % M64
  let h4 := h3 * xxhP3 % M64
  (h4 ^^^ (h4 / 2 ^ 32)) % M64

def xxh64Digest (st : Xxh64State) : Nat :=
  let h0 :=
    if 32 ≤ st.len then
      let acc := (rotl64 st.v1 1 + rotl64 st.v2 7 + rotl64 st.v3 12 + rotl64 st.v4 18) % M64
      xxhMerge (xxhMerge (xxhMerge (xxhMerge acc st.v1) st.v2) st.v3) st.v4
    else xxhP5
  let h1 := (h0 + st.len) % M64
  xxhAvalanche (xxhTailBytes (xxhTail4 (xxhTail8 h1 st.buf)))

/- The HashMethod enum of main.rs and the update / finalize dispatch
   (lines 45-49, 326-334, 353-357, 384-388, 469-477, 493-497, 521-525). -/

inductive HashMethod where
  | Md5 (s : Md5State)
  | Sha1 (s : Sha1State)
  | Xxh64 (s : Xxh64State)
deriving DecidableEq

def absorbByte (h : HashMethod) (x : Nat) : HashMethod :=
  match h with
  | .Md5 s => .Md5 (md5Absorb s x)
  | .Sha1 s => .Sha1 (sha1Absorb s x)
  | .Xxh64 s => .Xxh64 (xxhAbsorb s x)

def hashUpdate (h : HashMethod) (chunk : List Nat) : HashMethod :=
  chunk.foldl absorbByte h

def hashInit (m : String) : Option HashMethod :=
  if m = "md5" then some (.Md5 md5Init)
  else if m = "sha1" then some (.Sha1 sha1Init)
  else if m = "xxhash64" then some (.Xxh64 xxh64Init)
  else none

def hexDigitOf (n : Nat) : Char :=
  if n < 10 then Char.ofNat (48 + n) else Char.ofNat (87 + n)

def hexOfBytes (bs : List Nat) : String :=
  ⟨bs.foldr (fun b acc => hexDigitOf (b / 16 % 16) :: hexDigitOf (b % 16) :: acc) []⟩

def hashFinalizeHex (h : HashMethod) : String :=
  match h with
  | .Md5 s => hexOfBytes (md5Finalize s)
  | .Sha1 s => hexOfBytes (sha1Finalize s)
  | .Xxh64 s => hexOfBytes (be64 (xxh64Digest s))

/- Data model of the orchestrator (main.rs lines 36-43, 54-243).

   A source file is identified by its path relative to the parent of the input
   root (the value of file.strip_prefix(input.parent()) at line 104), which is
   also the path of its copy relative to the destination root.  The destination
   tree is an association list from such paths to byte contents, plus the list
   of directories present.  Each file carries an environment describing which of
   the OS calls made on its behalf fail during this run; the source is the
   authority for how each failure is handled (unwrap = process abort, ? = Err). -/

structure FileMetadata where
  file : String
  size : Nat
  last_modification_date : Nat
  checksum : String
  checksum_method : String
  hash_date : Nat
deriving DecidableEq

structure SrcFile where
  path : String
  content : List Nat
  mtime : Nat
deriving DecidableEq

structure FileEnv where
  srcOpenFails : Bool
  srcReadFails : Bool
  srcMetadataFails : Bool
  destMetadataFails : Bool
  destCreateFails : Bool
  destWriteFails : Bool
  destOpenFails : Bool
  destReadFails : Bool
  setPermissionsFails : Bool
  setFileTimesFails : Bool
  creationTimeAvailable : Bool
deriving DecidableEq

def envOk : FileEnv :=
  { srcOpenFails := false, srcReadFails := false, srcMetadataFails := false,
    destMetadataFails := false, destCreateFails := false, destWriteFails := false,
    destOpenFails := false, destReadFails := false, setPermissionsFails := false,
    setFileTimesFails := false, creationTimeAvailable := true }

structure Opts where
  checksum : Option String
  mhl : Bool
  dryRun : Bool
deriving DecidableEq

inductive StepExit where
  | panicked
  | exitedFatal
deriving DecidableEq

structure RunState where
  failed : List String
  mhl_data : List FileMetadata
  copiedAnything : Bool
  hadErrors : Bool
  files : List (String × List Nat)
  dirs : List String
deriving DecidableEq

def fsLookup (fs : List (String × List Nat)) (p : String) : Option (List Nat) :=
  (fs.find? (fun e => e.1 = p)).map (fun e => e.2)

def fsSet (fs : List (String × List Nat)) (p : String) (c : List Nat) :
    List (String × List Nat) :=
  (p, c) :: fs.filter (fun e => ¬ e.1 = p)

/- process_checksum (lines 458-532).  The function only ever returns the digest:
   its first print statement unwraps the Option algorithm (line 460, panics on
   None), File::open and read are unwrapped (lines 467 and 484, panic on
   failure), and an unknown algorithm name calls process::exit(1) (lines
   473-476).  The Ok(hash_string) at line 530 is the only return. -/

def process_checksum (content : List Nat) (openFails readFails : Bool)
    (checksum_method : Option String) : Except StepExit String :=
  match checksum_method with
  | none => .error .panicked
  | some m =>
    if openFails then .error .panicked
    else
      match hashInit m with
      | none => .error .exitedFatal
      | some e =>
        if readFails then .error .panicked
        else .ok (hashFinalizeHex (hashUpdate e content))

inductive CopyOutcome where
  | ok (digest : String)
  | ioError
deriving DecidableEq

/- copy_file (lines 305-455).  Opening the source and creating the destination
   are unwrapped (lines 313, 316: panic on failure); File::create truncates the
   destination to empty before the checksum-method match at lines 326-334, whose
   fallback arm calls process::exit(1); read and write_all inside the transfer
   loop are unwrapped (lines 345, 350); fs::metadata, set_permissions and
   set_file_times use ? (lines 391, 393, 399: Err for this file), while
   created.unwrap() at line 399 panics when no creation time is available.
   Without an algorithm the same transfer runs and Ok("None") is returned
   (line 453). -/

def copy_file (f : SrcFile) (env : FileEnv) (checksum_method : Option String)
    (fs : List (String × List Nat)) :
    Except (StepExit × List (String × List Nat)) (CopyOutcome × List (String × List Nat)) :=
  if env.srcOpenFails then .error (.panicked, fs)
  else if env.destCreateFails then .error (.panicked, fs)
  else
    let fs1 := fsSet fs f.path []
    match checksum_method with
    | some m =>
      match hashInit m with
      | none => .error (.exitedFatal, fs1)
      | some e =>
        if env.srcReadFails then .error (.panicked, fs1)
        else if env.destWriteFails then .error (.panicked, fs1)
        else
          let fs2 := fsSet fs1 f.path f.content
          if env.srcMetadataFails then .ok (.ioError, fs2)
          else if env.setPermissionsFails then .ok (.ioError, fs2)
          else if ¬ env.creationTimeAvailable then .error (.panicked, fs2)
          else if env.setFileTimesFails then .ok (.ioError, fs2)
          else .ok (.ok (hashFinalizeHex (hashUpdate e f.content)), fs2)
    | none =>
      if env.srcReadFails then .error (.panicked, fs1)
      else if env.destWriteFails then .error (.panicked, fs1)
      else
        let fs2 := fsSet fs1 f.path f.content
        if env.srcMetadataFails then .ok (.ioError, fs2)
        else if env.setPermissionsFails then .ok (.ioError, fs2)
        else if ¬ env.creationTimeAvailable then .error (.panicked, fs2)
        else if env.setFileTimesFails then .ok (.ioError, fs2)
        else .ok (.ok "None", fs2)

/- The skip-and-verify branch of the per-file loop (lines 111-147): both the
   source and the existing destination are re-hashed via process_checksum; on
   equal digests a FileMetadata record is pushed (lines 125-140, mapping the
   in-memory name xxhash64 to the serialized tag xxhash64be at lines 127-131),
   otherwise the file joins the failed list (lines 141-146).  The is_err arms at
   lines 115-124 are unreachable because process_checksum never returns Err. -/

def skipStep (opts : Opts) (now : Nat) (st : RunState) (f : SrcFile) (env : FileEnv)
    (dc : List Nat) : Except (StepExit × RunState) RunState :=
  match process_checksum f.content env.srcOpenFails env.srcReadFails opts.checksum with
  | .error e => .error (e, st)
  | .ok srcSum =>
    match process_checksum dc env.destOpenFails env.destReadFails opts.checksum with
    | .error e => .error (e, st)
    | .ok destSum =>
      if srcSum = destSum then
        match opts.checksum with
        | none => .error (.panicked, st)
        | some a =>
          .ok { st with mhl_data := st.mhl_data ++
                  [{ file := f.path, size := f.content.length,
                     last_modification_date := f.mtime, checksum := srcSum,
                     checksum_method := if a = "xxhash64" then "xxhash64be" else a,
                     hash_date := now }] }
      else .ok { st with failed := st.failed ++ [f.path], hadErrors := true }

/- The copy branch of the per-file loop (lines 157-200): copy_file, then the
   "None" shortcut (lines 164-167), then re-verification of the freshly written
   destination via process_checksum (line 171) and record push or failure
   (lines 178-199). -/

def copyStep (opts : Opts) (now : Nat) (st : RunState) (f : SrcFile) (env : FileEnv) :
    Except (StepExit × RunState) RunState :=
  match copy_file f env opts.checksum st.files with
  | .error (e, fs') => .error (e, { st with files := fs' })
  | .ok (.ioError, fs') =>
      .ok { st with files := fs', failed := st.failed ++ [f.path], hadErrors := true }
  | .ok (.ok d, fs') =>
      if d = "None" then .ok { st with files := fs', copiedAnything := true }
      else
        match process_checksum ((fsLookup fs' f.path).getD []) env.destOpenFails
            env.destReadFails opts.checksum with
        | .error e => .error (e, { st with files := fs', copiedAnything := true })
        | .ok destSum =>
          if d = destSum then
            match opts.checksum with
            | none => .error (.panicked, { st with files := fs', copiedAnything := true })
            | some a =>
              .ok { st with
                      files := fs',
                      copiedAnything := true,
                      mhl_data := st.mhl_data ++
                        [{ file := f.path, size := f.content.length,
                           last_modification_date := f.mtime, checksum := d,
                           checksum_method := if a = "xxhash64" then "xxhash64be" else a,
                           hash_date := now }] }
          else
            .ok { st with
                    files := fs',
                    copiedAnything := true,
                    failed := st.failed ++ [f.path],
                    hadErrors := true }

/- One iteration of the per-file loop (lines 101-201).  The skip condition at
   line 107 checks existence first and then compares sizes through two unwrapped
   metadata calls; the dry-run guard sits inside the skip branch (line 111) and
   before the copy (line 153). -/

def stepFile (opts : Opts) (now : Nat) (st : RunState) (f : SrcFile) (env : FileEnv) :
    Except (StepExit × RunState) RunState :=
  match fsLookup st.files f.path with
  | some dc =>
    if env.destMetadataFails then .error (.panicked, st)
    else if env.srcMetadataFails then .error (.panicked, st)
    else if dc.length = f.content.length then
      if opts.dryRun then .ok st else skipStep opts now st f env dc
    else
      if opts.dryRun then .ok st else copyStep opts now st f env
  | none =>
    if opts.dryRun then .ok st else copyStep opts now st f env

def runFiles (opts : Opts) (now : Nat) :
    List (SrcFile × FileEnv) → RunState → Option StepExit × RunState
  | [], st => (none, st)
  | (f, env) :: rest, st =>
    match stepFile opts now st f env with
    | .error (e, st') => (some e, st')
    | .ok st' => runFiles opts now rest st'

structure RunResult where
  state : RunState
  manifestWritten : Bool
  aborted : Option StepExit
deriving DecidableEq

deriving instance DecidableEq for Except

/- The whole of main after CLI validation (lines 88-243): the per-file loop,
   then recreation of empty input directories (lines 204-211, creation guarded
   by the dry-run flag), then manifest emission guarded by the mhl flag, the
   copied_anything flag and the dry-run flag (lines 213-226; a failing
   write_mhl_v2 exits the process). -/

def dirsAfter (opts : Opts) (emptyDirs : List String) (ds0 : List String) : List String :=
  emptyDirs.foldl
    (fun ds d => if ds.contains d then ds else if opts.dryRun then ds else ds ++ [d]) ds0

def runMain (opts : Opts) (now : Nat) (files : List (SrcFile × FileEnv))
    (emptyDirs : List String) (fs0 : List (String × List Nat)) (dirs0 : List String)
    (mhlWriteFails : Bool) : RunResult :=
  match runFiles opts now files
    { failed := [], mhl_data := [], copiedAnything := false, hadErrors := false,
      files := fs0, dirs := dirs0 } with
  | (some e, st) => { state := st, manifestWritten := false, aborted := some e }
  | (none, st) =>
    if opts.mhl && st.copiedAnything && !opts.dryRun then
      if mhlWriteFails then
        { state := { st with dirs := dirsAfter opts emptyDirs st.dirs },
          manifestWritten := false, aborted := some .exitedFatal }
      else
        { state := { st with dirs := dirsAfter opts emptyDirs st.dirs },
          manifestWritten := true, aborted := none }
    else
      { state := { st with dirs := dirsAfter opts emptyDirs st.dirs },
        manifestWritten := false, aborted := none }

/- write_mhl_v2 (lines 561-623) as the sequence of XML events it emits. -/

inductive XmlEvent where
  | startElement (name : String) (attrs : List (String × String))
  | characters (s : String)
  | endElement
deriving DecidableEq

def fmtTime (t : Nat) : String := toString t

def recordEvents (item : FileMetadata) : List XmlEvent :=
  [.startElement "hash" [], .startElement "file" [], .characters item.file, .endElement,
   .startElement "size" [], .characters (toString item.size), .endElement,
   .startElement "lastmodificationdate" [],
   .characters (fmtTime item.last_modification_date), .endElement,
   .startElement item.checksum_method [], .characters item.checksum, .endElement,
   .startElement "hashdate" [], .characters (fmtTime item.hash_date), .endElement,
   .endElement]

def write_mhl_v2 (metadata : List FileMetadata)
    (name username hostname tool startDate finishDate : String) : List XmlEvent :=
  [.startElement "hashlist" [("version", "1.1")],
   .startElement "creatorinfo" [],
   .startElement "name" [], .characters name, .endElement,
   .startElement "username" [], .characters username, .endElement,
   .startElement "hostname" [], .characters hostname, .endElement,
   .startElement "tool" [], .characters tool, .endElement,
   .startElement "startdate" [], .characters startDate, .endElement,
   .startElement "finishdate" [], .characters finishDate, .endElement,
   .endElement]
  ++ (metadata.map recordEvents).flatten
  ++ [.endElement]

/- The digest the run computes for a given algorithm name and content, and the
   record pushed for a verified file (lines 132-139 and 185-192). -/

def hashHexD (alg : String) (bs : List Nat) : String :=
  match hashInit alg with
  | some e => hashFinalizeHex (hashUpdate e bs)
  | none => ""

def verifiedRecord (alg : String) (f : SrcFile) (now : Nat) : FileMetadata :=
  { file := f.path, size := f.content.length, last_modification_date := f.mtime,
    checksum := hashHexD alg f.content,
    checksum_method := if alg = "xxhash64" then "xxhash64be" else alg,
    hash_date := now }

/- Basic facts about the hex rendering and the digest shapes. -/

theorem hexOfBytes_length (bs : List Nat) : (hexOfBytes bs).length = 2 * bs.length := by
  induction bs with
  | nil => rfl
  | cons b bs ih =>
    simp only [hexOfBytes, List.foldr, String.length] at ih ⊢
    simp only [List.length_cons] at ih ⊢
    omega

theorem hexDigitOf_mem (n : Nat) (h : n < 16) :
    hexDigitOf n ∈ ("0123456789abcdef").data := by
  interval_cases n <;> decide

theorem hexOfBytes_mem (bs : List Nat) (c : Char) (hc : c ∈ (hexOfBytes bs).data) :
    c ∈ ("0123456789abcdef").data := by
  induction bs with
  | nil => simp [hexOfBytes] at hc
  | cons b bs ih =>
    simp only [hexOfBytes, List.foldr, List.mem_cons] at hc
    rcases hc with h | h | h
    · exact h ▸ hexDigitOf_mem _ (Nat.mod_lt _ (by omega))
    · exact h ▸ hexDigitOf_mem _ (Nat.mod_lt _ (by omega))
    · exact ih (by simpa [hexOfBytes] using h)

theorem md5Finalize_length (st : Md5State) : (md5Finalize st).length = 16 := by
  simp [md5Finalize, le32]

theorem sha1Finalize_length (st : Sha1State) : (sha1Finalize st).length = 20 := by
  simp [sha1Finalize, be32]

theorem be64_length (w : Nat) : (be64 w).length = 8 := rfl

theorem hashFinalizeHex_length (h : HashMethod) :
    (hashFinalizeHex h).length = 32 ∨ (hashFinalizeHex h).length = 40 ∨
    (hashFinalizeHex h).length = 16 := by
  cases h with
  | Md5 s => left; rw [hashFinalizeHex, hexOfBytes_length, md5Finalize_length]
  | Sha1 s => right; left; rw [hashFinalizeHex, hexOfBytes_length, sha1Finalize_length]
  | Xxh64 s => right; right; rw [hashFinalizeHex, hexOfBytes_length, be64_length]

theorem hashFinalizeHex_ne_none (h : HashMethod) : hashFinalizeHex h ≠ "None" := by
  intro hcontra
  have hl := hashFinalizeHex_length h
  rw [hcontra] at hl
  rcases hl with h | h | h <;> exact absurd h (by decide)

/- hashUpdate is a fold of the per-byte absorb step, so updating in chunks is
   the same as updating on the concatenation. -/

theorem hashUpdate_append (e : HashMethod) (c1 c2 : List Nat) :
    hashUpdate (hashUpdate e c1) c2 = hashUpdate e (c1 ++ c2) := by
  simp [hashUpdate, List.foldl_append]

theorem foldl_hashUpdate_flatten (chunks : List (List Nat)) (e : HashMethod) :
    chunks.foldl hashUpdate e = hashUpdate e chunks.flatten := by
  induction chunks generalizing e with
  | nil => rfl
  | cons c cs ih =>
    simp only [List.foldl_cons, List.flatten_cons, ih, hashUpdate_append]

/- hashUpdate preserves the selected algorithm. -/

theorem hashUpdate_md5 (s : Md5State) (bs : List Nat) :
    ∃ s', hashUpdate (HashMethod.Md5 s) bs = HashMethod.Md5 s' := by
  induction bs generalizing s with
  | nil => exact ⟨s, rfl⟩
  | cons b bs ih => simpa [hashUpdate, absorbByte] using ih (md5Absorb s b)

theorem hashUpdate_sha1 (s : Sha1State) (bs : List Nat) :
    ∃ s', hashUpdate (HashMethod.Sha1 s) bs = HashMethod.Sha1 s' := by
  induction bs generalizing s with
  | nil => exact ⟨s, rfl⟩
  | cons b bs ih => simpa [hashUpdate, absorbByte] using ih (sha1Absorb s b)

theorem hashUpdate_xxh64 (s : Xxh64State) (bs : List Nat) :
    ∃ s', hashUpdate (HashMethod.Xxh64 s) bs = HashMethod.Xxh64 s' := by
  induction bs generalizing s with
  | nil => exact ⟨s, rfl⟩
  | cons b bs ih => simpa [hashUpdate, absorbByte] using ih (xxhAbsorb s b)

theorem fsLookup_fsSet_self (fs : List (String × List Nat)) (p : String) (c : List Nat) :
    fsLookup (fsSet fs p c) p = some c := by
  simp [fsLookup, fsSet]

/- Evaluation of the skip-and-verify branch when the per-file OS calls succeed:
   both digests are recomputed and the record is pushed exactly when they are
   equal. -/

theorem skipStep_eval (opts : Opts) (now : Nat) (st : RunState) (f : SrcFile)
    (env : FileEnv) (dc : List Nat) (alg : String) (e : HashMethod)
    (halg : opts.checksum = some alg) (he : hashInit alg = some e)
    (h1 : env.srcOpenFails = false) (h2 : env.srcReadFails = false)
    (h3 : env.destOpenFails = false) (h4 : env.destReadFails = false) :
    skipStep opts now st f env dc =
      (if hashFinalizeHex (hashUpdate e f.content) = hashFinalizeHex (hashUpdate e dc) then
        .ok { st with mhl_data := st.mhl_data ++ [verifiedRecord alg f now] }
      else .ok { st with failed := st.failed ++ [f.path], hadErrors := true }) := by
  by_cases hEq : hashFinalizeHex (hashUpdate e f.content) = hashFinalizeHex (hashUpdate e dc) <;>
    simp [skipStep, process_checksum, halg, he, h1, h2, h3, h4, hEq, verifiedRecord, hashHexD]

/- Any surviving skip-branch step either pushed the verified record (digests
   equal) or pushed the file onto the failed list; the destination is never
   written in this branch. -/

theorem skipStep_ok_char (opts : Opts) (now : Nat) (st : RunState) (f : SrcFile)
    (env : FileEnv) (dc : List Nat) (alg : String) (e : HashMethod) (st' : RunState)
    (halg : opts.checksum = some alg) (he : hashInit alg = some e)
    (hstep : skipStep opts now st f env dc = .ok st') :
    (hashHexD alg dc = hashHexD alg f.content ∧
      st'.mhl_data = st.mhl_data ++ [verifiedRecord alg f now] ∧
      st'.failed = st.failed ∧ st'.files = st.files)
    ∨ (st'.mhl_data = st.mhl_data ∧ st'.failed = st.failed ++ [f.path] ∧
      st'.files = st.files) := by
  by_cases h1 : env.srcOpenFails = true
  · simp [skipStep, process_checksum, halg, h1] at hstep
  rw [Bool.not_eq_true] at h1
  by_cases h2 : env.srcReadFails = true
  · simp [skipStep, process_checksum, halg, he, h1, h2] at hstep
  rw [Bool.not_eq_true] at h2
  by_cases h3 : env.destOpenFails = true
  · simp [skipStep, process_checksum, halg, he, h1, h2, h3] at hstep
  rw [Bool.not_eq_true] at h3
  by_cases h4 : env.destReadFails = true
  · simp [skipStep, process_checksum, halg, he, h1, h2, h3, h4] at hstep
  rw [Bool.not_eq_true] at h4
  rw [skipStep_eval opts now st f env dc alg e halg he h1 h2 h3 h4] at hstep
  by_cases hEq : hashFinalizeHex (hashUpdate e f.content) = hashFinalizeHex (hashUpdate e dc)
  · rw [if_pos hEq] at hstep
    injection hstep with hst
    subst hst
    left
    exact ⟨by simp [hashHexD, he, hEq.symm], rfl, rfl, rfl⟩
  · rw [if_neg hEq] at hstep
    injection hstep with hst
    subst hst
    right
    exact ⟨rfl, rfl, rfl⟩

/- Any surviving copy-branch step wrote the full source content to the
   destination (after truncating it) and either pushed the verified record or
   pushed the file onto the failed list. -/

theorem copyStep_ok_char (opts : Opts) (now : Nat) (st : RunState) (f : SrcFile)
    (env : FileEnv) (alg : String) (e : HashMethod) (st' : RunState)
    (halg : opts.checksum = some alg) (he : hashInit alg = some e)
    (hstep : copyStep opts now st f env = .ok st') :
    (st'.mhl_data = st.mhl_data ++ [verifiedRecord alg f now] ∧ st'.failed = st.failed ∧
      st'.files = fsSet (fsSet st.files f.path []) f.path f.content)
    ∨ (st'.mhl_data = st.mhl_data ∧ st'.failed = st.failed ++ [f.path] ∧
      st'.files = fsSet (fsSet st.files f.path []) f.path f.content) := by
  by_cases h1 : env.srcOpenFails = true
  · simp [copyStep, copy_file, h1] at hstep
  rw [Bool.not_eq_true] at h1
  by_cases h2 : env.destCreateFails = true
  · simp [copyStep, copy_file, h1, h2] at hstep
  rw [Bool.not_eq_true] at h2
  by_cases h3 : env.srcReadFails = true
  · simp [copyStep, copy_file, halg, he, h1, h2, h3] at hstep
  rw [Bool.not_eq_true] at h3
  by_cases h4 : env.destWriteFails = true
  · simp [copyStep, copy_file, halg, he, h1, h2, h3, h4] at hstep
  rw [Bool.not_eq_true] at h4
  by_cases h5 : env.srcMetadataFails = true
  · right
    simp [copyStep, copy_file, halg, he, h1, h2, h3, h4, h5] at hstep
    subst hstep
    exact ⟨rfl, rfl, rfl⟩
  rw [Bool.not_eq_true] at h5
  by_cases h6 : env.setPermissionsFails = true
  · right
    simp [copyStep, copy_file, halg, he, h1, h2, h3, h4, h5, h6] at hstep
    subst hstep
    exact ⟨rfl, rfl, rfl⟩
  rw [Bool.not_eq_true] at h6
  by_cases h7 : env.creationTimeAvailable = true
  case neg =>
    rw [Bool.not_eq_true] at h7
    simp [copyStep, copy_file, halg, he, h1, h2, h3, h4, h5, h6, h7] at hstep
  by_cases h8 : env.setFileTimesFails = true
  · right
    simp [copyStep, copy_file, halg, he, h1, h2, h3, h4, h5, h6, h7, h8] at hstep
    subst hstep
    exact ⟨rfl, rfl, rfl⟩
  rw [Bool.not_eq_true] at h8
  by_cases h9 : env.destOpenFails = true
  · simp [copyStep, copy_file, process_checksum, halg, he, h1, h2, h3, h4, h5, h6, h7, h8, h9,
      hashFinalizeHex_ne_none] at hstep
  rw [Bool.not_eq_true] at h9
  by_cases h10 : env.destReadFails = true
  · simp [copyStep, copy_file, process_checksum, halg, he, h1, h2, h3, h4, h5, h6, h7, h8, h9,
      h10, hashFinalizeHex_ne_none, fsLookup_fsSet_self] at hstep
  rw [Bool.not_eq_true] at h10
  left
  simp [copyStep, copy_file, process_checksum, halg, he, h1, h2, h3, h4, h5, h6, h7, h8, h9,
    h10, hashFinalizeHex_ne_none, fsLookup_fsSet_self] at hstep
  subst hstep
  refine ⟨?_, rfl, rfl⟩
  simp [verifiedRecord, hashHexD, he]

/- The copy-branch characterization, restated in the form needed for the
   manifest invariant: the record enters the manifest only together with a
   destination whose digest matches the source digest. -/

theorem copyStep_record_or_failed (opts : Opts) (now : Nat) (st : RunState) (f : SrcFile)
    (env : FileEnv) (alg : String) (e : HashMethod) (st' : RunState)
    (halg : opts.checksum = some alg) (he : hashInit alg = some e)
    (hstep : copyStep opts now st f env = .ok st') :
    (st'.mhl_data = st.mhl_data ++ [verifiedRecord alg f now] ∧ st'.failed = st.failed ∧
      ∀ dc2, fsLookup st'.files f.path = some dc2 → hashHexD alg dc2 = hashHexD alg f.content)
    ∨ (st'.mhl_data = st.mhl_data ∧ st'.failed = st.failed ++ [f.path]) := by
  rcases copyStep_ok_char opts now st f env alg e st' halg he hstep with
    ⟨hm, hf, hfs⟩ | ⟨hm, hf, hfs⟩
  · left
    refine ⟨hm, hf, fun dc2 hdc2 => ?_⟩
    rw [hfs, fsLookup_fsSet_self] at hdc2
    injection hdc2 with hh
    subst hh
    rfl
  · right
    exact ⟨hm, hf⟩

/- Characterization of a surviving per-file step of a non-preview run with a
   valid algorithm: either the verified record was appended (and the digest of
   whatever the destination now holds under the file's path matches the source
   digest), or the manifest is untouched and the file joined the failed list. -/

theorem stepFile_ok_char (opts : Opts) (now : Nat) (st : RunState) (f : SrcFile)
    (env : FileEnv) (alg : String) (e : HashMethod) (st' : RunState)
    (hdry : opts.dryRun = false) (halg : opts.checksum = some alg)
    (he : hashInit alg = some e)
    (hstep : stepFile opts now st f env = .ok st') :
    (st'.mhl_data = st.mhl_data ++ [verifiedRecord alg f now] ∧ st'.failed = st.failed ∧
      ∀ dc2, fsLookup st'.files f.path = some dc2 → hashHexD alg dc2 = hashHexD alg f.content)
    ∨ (st'.mhl_data = st.mhl_data ∧ st'.failed = st.failed ++ [f.path]) := by
  unfold stepFile at hstep
  cases hlk : fsLookup st.files f.path with
  | none =>
    rw [hlk] at hstep
    rw [hdry] at hstep
    simp only [Bool.false_eq_true, if_false] at hstep
    exact copyStep_record_or_failed opts now st f env alg e st' halg he hstep
  | some dc =>
    rw [hlk] at hstep
    by_cases hm1 : env.destMetadataFails = true
    · simp [hm1] at hstep
    rw [Bool.not_eq_true] at hm1
    by_cases hm2 : env.srcMetadataFails = true
    · simp [hm1, hm2] at hstep
    rw [Bool.not_eq_true] at hm2
    rw [hm1, hm2] at hstep
    simp only [Bool.false_eq_true, if_false] at hstep
    by_cases hlen : dc.length = f.content.length
    · rw [if_pos hlen, hdry] at hstep
      simp only [Bool.false_eq_true, if_false] at hstep
      rcases skipStep_ok_char opts now st f env dc alg e st' halg he hstep with
        ⟨hEq, hm, hf, hfs⟩ | ⟨hm, hf, hfs⟩
      · left
        refine ⟨hm, hf, fun dc2 hdc2 => ?_⟩
        rw [hfs, hlk] at hdc2
        injection hdc2 with hh
        subst hh
        exact hEq
      · right
        exact ⟨hm, hf⟩
    · rw [if_neg hlen, hdry] at hstep
      simp only [Bool.false_eq_true, if_false] at hstep
      exact copyStep_record_or_failed opts now st f env alg e st' halg he hstep

/- Preview mode: each per-file step either leaves the state untouched or panics
   on an unwrapped metadata call, also leaving the state untouched. -/

theorem stepFile_dry (opts : Opts) (now : Nat) (st : RunState) (f : SrcFile) (env : FileEnv)
    (hdry : opts.dryRun = true) :
    stepFile opts now st f env = .ok st ∨
    stepFile opts now st f env = .error (.panicked, st) := by
  unfold stepFile
  cases hlk : fsLookup st.files f.path with
  | none => left; simp [hdry]
  | some dc =>
    by_cases hm1 : env.destMetadataFails = true
    · right; simp [hm1]
    rw [Bool.not_eq_true] at hm1
    by_cases hm2 : env.srcMetadataFails = true
    · right; simp [hm1, hm2]
    rw [Bool.not_eq_true] at hm2
    by_cases hlen : dc.length = f.content.length
    · left; simp [hm1, hm2, hlen, hdry]
    · left; simp [hm1, hm2, hlen, hdry]

theorem runFiles_dry (opts : Opts) (now : Nat) (hdry : opts.dryRun = true)
    (files : List (SrcFile × FileEnv)) :
    ∀ st : RunState, (runFiles opts now files st).2 = st := by
  induction files with
  | nil => intro st; rfl
  | cons fe rest ih =>
    intro st
    obtain ⟨f, env⟩ := fe
    rcases stepFile_dry opts now st f env hdry with h | h
    · simp [runFiles, h, ih]
    · simp [runFiles, h]

theorem dirsAfter_dry (opts : Opts) (hdry : opts.dryRun = true) (emptyDirs : List String) :
    ∀ ds : List String, dirsAfter opts emptyDirs ds = ds := by
  induction emptyDirs with
  | nil => intro ds; rfl
  | cons d rest ih =>
    intro ds
    unfold dirsAfter
    rw [List.foldl_cons]
    have hone : (if ds.contains d then ds else if opts.dryRun then ds else ds ++ [d]) = ds := by
      rw [hdry]
      simp [ite_self]
    rw [hone]
    exact ih ds

/- With an unknown algorithm name and a healthy environment, the per-file step
   always reaches one of the two fallback arms that call process::exit(1) -- but
   in the copy branch only after the destination file has been created and
   truncated. -/

theorem stepFile_invalid_alg (opts : Opts) (now : Nat) (st : RunState) (f : SrcFile)
    (alg : String) (halg : opts.checksum = some alg) (hinv : hashInit alg = none)
    (hdry : opts.dryRun = false) :
    stepFile opts now st f envOk = .error (.exitedFatal, st) ∨
    stepFile opts now st f envOk =
      .error (.exitedFatal, { st with files := fsSet st.files f.path [] }) := by
  unfold stepFile
  cases hlk : fsLookup st.files f.path with
  | none =>
    right
    simp [hdry, copyStep, copy_file, halg, hinv, envOk]
  | some dc =>
    by_cases hlen : dc.length = f.content.length
    · left
      simp [envOk, hlen, hdry, skipStep, process_checksum, halg, hinv]
    · right
      simp [envOk, hlen, hdry, copyStep, copy_file, halg, hinv]

/- A run in which every file already sits at the destination with identical
   content, under a healthy environment and a valid algorithm, verifies and
   records every file without touching the destination and without ever setting
   the copied_anything flag. -/

theorem runFiles_all_skip (opts : Opts) (now : Nat) (alg : String) (e : HashMethod)
    (halg : opts.checksum = some alg) (he : hashInit alg = some e)
    (hdry : opts.dryRun = false) (files : List (SrcFile × FileEnv)) :
    ∀ st : RunState,
      (∀ fe ∈ files, fe.2 = envOk ∧ fsLookup st.files fe.1.path = some fe.1.content) →
      runFiles opts now files st =
        (none, { st with mhl_data := st.mhl_data ++
                  files.map (fun fe => verifiedRecord alg fe.1 now) }) := by
  induction files with
  | nil =>
    intro st _
    simp [runFiles]
  | cons fe rest ih =>
    intro st hpre
    obtain ⟨f, env⟩ := fe
    obtain ⟨henv0, hlk0⟩ := hpre (f, env) (List.mem_cons_self _ _)
    have henv : env = envOk := henv0
    have hlk : fsLookup st.files f.path = some f.content := hlk0
    have hstep : stepFile opts now st f env =
        .ok { st with mhl_data := st.mhl_data ++ [verifiedRecord alg f now] } := by
      rw [henv]
      unfold stepFile
      rw [hlk]
      simp only [envOk, Bool.false_eq_true, if_false, hdry, eq_self_iff_true, if_true]
      have heval := skipStep_eval opts now st f envOk f.content alg e halg he rfl rfl rfl rfl
      rw [if_pos rfl] at heval
      exact heval
    have hpre' : ∀ gd ∈ rest, gd.2 = envOk ∧
        fsLookup ({ st with mhl_data := st.mhl_data ++
          [verifiedRecord alg f now] } : RunState).files gd.1.path = some gd.1.content :=
      fun gd hgd => hpre gd (List.mem_cons_of_mem _ hgd)
    simp only [runFiles, hstep]
    rw [ih _ hpre']
    simp [List.append_assoc]

/- Every record of the metadata list yields a checksum element in the serialized
   manifest whose tag is the record's checksum_method field. -/

theorem mem_write_mhl_v2 (r : FileMetadata) (records : List FileMetadata)
    (hr : r ∈ records) (name username hostname tool startDate finishDate : String) :
    XmlEvent.startElement r.checksum_method [] ∈
      write_mhl_v2 records name username hostname tool startDate finishDate := by
  unfold write_mhl_v2
  rw [List.append_assoc, List.mem_append]
  right
  rw [List.mem_append]
  left
  rw [List.mem_flatten]
  exact ⟨recordEvents r, List.mem_map_of_mem _ hr, by simp [recordEvents]⟩

/- Concrete fixtures for the witnesses and counterexamples. -/

def c1wOpts : Opts := { checksum := some "xxhash64", mhl := false, dryRun := false }

def c1wFile : SrcFile := { path := "a", content := [49], mtime := 5 }

def c1wState : RunState :=
  { failed := [], mhl_data := [], copiedAnything := false, hadErrors := false,
    files := [("a", [49])], dirs := [] }

def c1wAfter : RunState := { c1wState with mhl_data := [verifiedRecord "xxhash64" c1wFile 5] }

/-- Claim C1, as stated, fails on the code: for the file "a" whose read fails
mid-copy, an I/O failure occurs, yet the run aborts through the unwrap panic
with an empty failed-file list instead of recording the file as failed (the
manifest list is indeed unchanged). -/
theorem C1_counterexample :
    (runMain { checksum := some "xxhash64", mhl := false, dryRun := false } 0
      [({ path := "a", content := [49], mtime := 0 }, { envOk with srcReadFails := true })]
      [] [] [] false).aborted = some .panicked ∧
    (runMain { checksum := some "xxhash64", mhl := false, dryRun := false } 0
      [({ path := "a", content := [49], mtime := 0 }, { envOk with srcReadFails := true })]
      [] [] [] false).state.failed = [] ∧
    (runMain { checksum := some "xxhash64", mhl := false, dryRun := false } 0
      [({ path := "a", content := [49], mtime := 0 }, { envOk with srcReadFails := true })]
      [] [] [] false).state.mhl_data = [] := by
  decide

/-- Claim C1 (amended): in a non-preview run with a valid algorithm, every
per-file step that does not abort the process either appends exactly the
verified record, whose checksum is the freshly computed source digest and
matches the digest of the destination contents under that path, and leaves the
failed list unchanged, or appends nothing to the manifest and adds the file to
the failed list.  Failures that the code surfaces as panics (open, read, write,
verification-read, missing creation time) abort the whole process and are
excluded by the hypothesis that the step returned. -/
theorem C1_manifest_record_dichotomy (opts : Opts) (now : Nat) (st : RunState) (f : SrcFile)
    (env : FileEnv) (alg : String) (e : HashMethod) (st' : RunState)
    (hdry : opts.dryRun = false) (halg : opts.checksum = some alg)
    (he : hashInit alg = some e)
    (hstep : stepFile opts now st f env = .ok st') :
    (st'.mhl_data = st.mhl_data ++ [verifiedRecord alg f now] ∧ st'.failed = st.failed ∧
      ∀ dc2, fsLookup st'.files f.path = some dc2 → hashHexD alg dc2 = hashHexD alg f.content)
    ∨ (st'.mhl_data = st.mhl_data ∧ st'.failed = st.failed ++ [f.path]) :=
  stepFile_ok_char opts now st f env alg e st' hdry halg he hstep

/-- Witness for C1 at a concrete skip-verified file. -/
theorem C1_witness :
    c1wOpts.dryRun = false ∧ c1wOpts.checksum = some "xxhash64" ∧
    hashInit "xxhash64" = some (.Xxh64 xxh64Init) ∧
    stepFile c1wOpts 5 c1wState c1wFile envOk = .ok c1wAfter ∧
    ((c1wAfter.mhl_data = c1wState.mhl_data ++ [verifiedRecord "xxhash64" c1wFile 5] ∧
      c1wAfter.failed = c1wState.failed ∧
      ∀ dc2, fsLookup c1wAfter.files c1wFile.path = some dc2 →
        hashHexD "xxhash64" dc2 = hashHexD "xxhash64" c1wFile.content)
     ∨ (c1wAfter.mhl_data = c1wState.mhl_data ∧
        c1wAfter.failed = c1wState.failed ++ [c1wFile.path])) :=
  ⟨rfl, rfl, rfl, by decide,
   C1_manifest_record_dichotomy c1wOpts 5 c1wState c1wFile envOk "xxhash64"
     (.Xxh64 xxh64Init) c1wAfter rfl rfl rfl (by decide)⟩

/-- Claim C2, as stated, fails on the code: re-running the copy against a
destination already holding the identical file, with checksums enabled and the
mhl flag set, skip-verifies the file and accumulates its record, but the
manifest is NOT written, because the guard at line 213 additionally requires
copied_anything, which the skip branch never sets. -/
theorem C2_counterexample :
    (runMain { checksum := some "xxhash64", mhl := true, dryRun := false } 0
      [({ path := "a", content := [49], mtime := 0 }, envOk)] [] [("a", [49])] []
      false).aborted = none ∧
    (runMain { checksum := some "xxhash64", mhl := true, dryRun := false } 0
      [({ path := "a", content := [49], mtime := 0 }, envOk)] [] [("a", [49])] []
      false).state.failed = [] ∧
    (runMain { checksum := some "xxhash64", mhl := true, dryRun := false } 0
      [({ path := "a", content := [49], mtime := 0 }, envOk)] [] [("a", [49])] []
      false).state.mhl_data ≠ [] ∧
    (runMain { checksum := some "xxhash64", mhl := true, dryRun := false } 0
      [({ path := "a", content := [49], mtime := 0 }, envOk)] [] [("a", [49])] []
      false).manifestWritten = false := by
  decide

/-- Claim C2 (amended): re-running the copy with a valid algorithm against a
destination already containing every file with identical content classifies
every file as skipped-verified (one matching record per file accumulated, no
failures, no abort), writes zero bytes to any destination file, but does NOT
write the manifest even when the mhl flag is set, because no file was actually
copied. -/
theorem C2_idempotent_skip_run (opts : Opts) (now : Nat) (files : List (SrcFile × FileEnv))
    (emptyDirs : List String) (fs0 : List (String × List Nat)) (dirs0 : List String)
    (mw : Bool) (alg : String) (e : HashMethod)
    (halg : opts.checksum = some alg) (he : hashInit alg = some e)
    (hdry : opts.dryRun = false)
    (hpre : ∀ fe ∈ files, fe.2 = envOk ∧ fsLookup fs0 fe.1.path = some fe.1.content) :
    (runMain opts now files emptyDirs fs0 dirs0 mw).aborted = none ∧
    (runMain opts now files emptyDirs fs0 dirs0 mw).state.files = fs0 ∧
    (runMain opts now files emptyDirs fs0 dirs0 mw).state.failed = [] ∧
    (runMain opts now files emptyDirs fs0 dirs0 mw).state.copiedAnything = false ∧
    (runMain opts now files emptyDirs fs0 dirs0 mw).state.mhl_data =
      files.map (fun fe => verifiedRecord alg fe.1 now) ∧
    (runMain opts now files emptyDirs fs0 dirs0 mw).manifestWritten = false := by
  have hrf := runFiles_all_skip opts now alg e halg he hdry files
    { failed := [], mhl_data := [], copiedAnything := false, hadErrors := false,
      files := fs0, dirs := dirs0 } hpre
  unfold runMain
  rw [hrf]
  simp

def c2wFile : SrcFile := { path := "b", content := [97], mtime := 3 }

/-- Witness for C2 at a concrete one-file identical destination. -/
theorem C2_witness :
    ({ checksum := some "md5", mhl := true, dryRun := false } : Opts).checksum = some "md5" ∧
    hashInit "md5" = some (.Md5 md5Init) ∧
    ({ checksum := some "md5", mhl := true, dryRun := false } : Opts).dryRun = false ∧
    (∀ fe ∈ [(c2wFile, envOk)], fe.2 = envOk ∧
      fsLookup [("b", [97])] fe.1.path = some fe.1.content) ∧
    ((runMain { checksum := some "md5", mhl := true, dryRun := false } 3 [(c2wFile, envOk)]
        [] [("b", [97])] [] true).aborted = none ∧
     (runMain { checksum := some "md5", mhl := true, dryRun := false } 3 [(c2wFile, envOk)]
        [] [("b", [97])] [] true).state.files = [("b", [97])] ∧
     (runMain { checksum := some "md5", mhl := true, dryRun := false } 3 [(c2wFile, envOk)]
        [] [("b", [97])] [] true).state.failed = [] ∧
     (runMain { checksum := some "md5", mhl := true, dryRun := false } 3 [(c2wFile, envOk)]
        [] [("b", [97])] [] true).state.copiedAnything = false ∧
     (runMain { checksum := some "md5", mhl := true, dryRun := false } 3 [(c2wFile, envOk)]
        [] [("b", [97])] [] true).state.mhl_data =
       [(c2wFile, envOk)].map (fun fe => verifiedRecord "md5" fe.1 3) ∧
     (runMain { checksum := some "md5", mhl := true, dryRun := false } 3 [(c2wFile, envOk)]
        [] [("b", [97])] [] true).manifestWritten = false) :=
  ⟨rfl, rfl, rfl, by decide,
   C2_idempotent_skip_run { checksum := some "md5", mhl := true, dryRun := false } 3
     [(c2wFile, envOk)] [] [("b", [97])] [] true "md5" (.Md5 md5Init) rfl rfl rfl (by decide)⟩

/-- Claim C3 is the spec's intent, but the code violates it: when opening the
source file fails, copy_file panics through File::open(..).unwrap() at line 313
instead of returning a per-file CopyError, so the whole run aborts, the failed
path is never recorded and the second file is never processed.  (Metadata,
permission and timestamp failures do flow back as per-file errors through ?.) -/
theorem C3_open_failure_aborts_run :
    (runMain { checksum := some "md5", mhl := false, dryRun := false } 0
      [({ path := "a", content := [48], mtime := 0 }, { envOk with srcOpenFails := true }),
       ({ path := "b", content := [49], mtime := 0 }, envOk)] [] [] [] false).aborted
      = some .panicked ∧
    (runMain { checksum := some "md5", mhl := false, dryRun := false } 0
      [({ path := "a", content := [48], mtime := 0 }, { envOk with srcOpenFails := true }),
       ({ path := "b", content := [49], mtime := 0 }, envOk)] [] [] [] false).state.failed
      = [] ∧
    (runMain { checksum := some "md5", mhl := false, dryRun := false } 0
      [({ path := "a", content := [48], mtime := 0 }, { envOk with srcOpenFails := true }),
       ({ path := "b", content := [49], mtime := 0 }, envOk)] [] [] [] false).state.files
      = [] := by
  decide

/-- Claim C4, as stated, fails on the code: with the unsupported algorithm
"crc32" the run does abort fatally, but only from inside copy_file, after the
first file's destination has already been created and truncated to zero bytes
(lines 316 then 326-334), so per-file work has begun and a destination file
exists. -/
theorem C4_counterexample :
    (runMain { checksum := some "crc32", mhl := false, dryRun := false } 0
      [({ path := "a", content := [49], mtime := 0 }, envOk)] [] [] [] false).aborted
      = some .exitedFatal ∧
    (runMain { checksum := some "crc32", mhl := false, dryRun := false } 0
      [({ path := "a", content := [49], mtime := 0 }, envOk)] [] [] [] false).state.files
      = [("a", [])] := by
  decide

/-- Claim C4 (amended): a requested algorithm outside the three supported names
makes the run abort fatally at the first file that reaches hasher construction,
with nothing recorded, no failure entries and no manifest; however the abort
happens inside the per-file work, and in the copy path the first file's
destination has already been created and truncated (at most that one empty file
is the only destination mutation). -/
theorem C4_invalid_alg_fatal (opts : Opts) (now : Nat) (f : SrcFile)
    (rest : List (SrcFile × FileEnv)) (emptyDirs : List String)
    (fs0 : List (String × List Nat)) (dirs0 : List String) (mw : Bool) (alg : String)
    (halg : opts.checksum = some alg) (hinv : hashInit alg = none)
    (hdry : opts.dryRun = false) :
    (runMain opts now ((f, envOk) :: rest) emptyDirs fs0 dirs0 mw).aborted
      = some .exitedFatal ∧
    (runMain opts now ((f, envOk) :: rest) emptyDirs fs0 dirs0 mw).state.mhl_data = [] ∧
    (runMain opts now ((f, envOk) :: rest) emptyDirs fs0 dirs0 mw).state.failed = [] ∧
    (runMain opts now ((f, envOk) :: rest) emptyDirs fs0 dirs0 mw).manifestWritten = false ∧
    ((runMain opts now ((f, envOk) :: rest) emptyDirs fs0 dirs0 mw).state.files = fs0 ∨
     (runMain opts now ((f, envOk) :: rest) emptyDirs fs0 dirs0 mw).state.files
       = fsSet fs0 f.path []) := by
  rcases stepFile_invalid_alg opts now
    { failed := [], mhl_data := [], copiedAnything := false, hadErrors := false,
      files := fs0, dirs := dirs0 } f alg halg hinv hdry with h | h
  · unfold runMain runFiles
    rw [h]
    exact ⟨rfl, rfl, rfl, rfl, Or.inl rfl⟩
  · unfold runMain runFiles
    rw [h]
    exact ⟨rfl, rfl, rfl, rfl, Or.inr rfl⟩

def c4wFile : SrcFile := { path := "c", content := [50], mtime := 0 }

/-- Witness for C4 at the spec's concrete "crc32" scenario. -/
theorem C4_witness :
    ({ checksum := some "crc32", mhl := true, dryRun := false } : Opts).checksum
      = some "crc32" ∧
    hashInit "crc32" = none ∧
    ({ checksum := some "crc32", mhl := true, dryRun := false } : Opts).dryRun = false ∧
    ((runMain { checksum := some "crc32", mhl := true, dryRun := false } 0
        [(c4wFile, envOk)] [] [] [] false).aborted = some .exitedFatal ∧
     (runMain { checksum := some "crc32", mhl := true, dryRun := false } 0
        [(c4wFile, envOk)] [] [] [] false).state.mhl_data = [] ∧
     (runMain { checksum := some "crc32", mhl := true, dryRun := false } 0
        [(c4wFile, envOk)] [] [] [] false).state.failed = [] ∧
     (runMain { checksum := some "crc32", mhl := true, dryRun := false } 0
        [(c4wFile, envOk)] [] [] [] false).manifestWritten = false ∧
     ((runMain { checksum := some "crc32", mhl := true, dryRun := false } 0
        [(c4wFile, envOk)] [] [] [] false).state.files = [] ∨
      (runMain { checksum := some "crc32", mhl := true, dryRun := false } 0
        [(c4wFile, envOk)] [] [] [] false).state.files = fsSet [] c4wFile.path [])) :=
  ⟨rfl, rfl, rfl,
   C4_invalid_alg_fatal { checksum := some "crc32", mhl := true, dryRun := false } 0
     c4wFile [] [] [] [] false "crc32" rfl rfl rfl⟩

/-- Claim C5: in a non-preview run with no algorithm requested, a destination
file that already exists with the source's size drives the skip branch into
process_checksum, whose very first statement unwraps the absent Option (line
460), so the step panics and the file is neither skipped, verified nor copied:
the state is returned untouched under the panic. -/
theorem C5_absent_algorithm_panics (opts : Opts) (now : Nat) (st : RunState) (f : SrcFile)
    (env : FileEnv) (dc : List Nat)
    (hchk : opts.checksum = none) (hdry : opts.dryRun = false)
    (hlk : fsLookup st.files f.path = some dc) (hlen : dc.length = f.content.length)
    (hm1 : env.destMetadataFails = false) (hm2 : env.srcMetadataFails = false) :
    stepFile opts now st f env = .error (.panicked, st) := by
  unfold stepFile
  rw [hlk]
  simp [hm1, hm2, hlen, hdry, skipStep, process_checksum, hchk]

def c5wFile : SrcFile := { path := "d", content := [55], mtime := 0 }

def c5wState : RunState :=
  { failed := [], mhl_data := [], copiedAnything := false, hadErrors := false,
    files := [("d", [56])], dirs := [] }

/-- Witness for C5 at a concrete size-matching destination file. -/
theorem C5_witness :
    ({ checksum := none, mhl := false, dryRun := false } : Opts).checksum = none ∧
    ({ checksum := none, mhl := false, dryRun := false } : Opts).dryRun = false ∧
    fsLookup c5wState.files c5wFile.path = some [56] ∧
    ([56] : List Nat).length = c5wFile.content.length ∧
    envOk.destMetadataFails = false ∧
    envOk.srcMetadataFails = false ∧
    stepFile { checksum := none, mhl := false, dryRun := false } 0 c5wState c5wFile envOk
      = .error (.panicked, c5wState) :=
  ⟨rfl, rfl, by decide, rfl, rfl, rfl,
   C5_absent_algorithm_panics { checksum := none, mhl := false, dryRun := false } 0
     c5wState c5wFile envOk [56] rfl rfl (by decide) rfl rfl rfl⟩

/-- Claim C6: for every byte sequence and every chunking of it, feeding the
chunks in order to a fresh engine of any of the three supported algorithms and
finalizing yields the same digest string as hashing the concatenation in one
piece: the digest is a pure function of the concatenated input. -/
theorem C6_digest_chunk_invariant (m : String) (e : HashMethod)
    (chunks : List (List Nat)) (he : hashInit m = some e) :
    hashFinalizeHex (chunks.foldl hashUpdate e) =
      hashFinalizeHex (hashUpdate e chunks.flatten) := by
  rw [foldl_hashUpdate_flatten]

/-- Witness for C6 on a two-chunk split of the bytes of "abc" under sha1. -/
theorem C6_witness :
    hashInit "sha1" = some (.Sha1 sha1Init) ∧
    hashFinalizeHex ([[97], [98, 99]].foldl hashUpdate (.Sha1 sha1Init)) =
      hashFinalizeHex (hashUpdate (.Sha1 sha1Init) [[97], [98, 99]].flatten) :=
  ⟨rfl, C6_digest_chunk_invariant "sha1" (.Sha1 sha1Init) [[97], [98, 99]] rfl⟩

/-- Claim C8: for every byte sequence, the finalized digest string has the fixed
algorithm-specific width (32 hex characters for md5, 40 for sha1, 16 for
xxhash64) and consists solely of lowercase hexadecimal characters. -/
theorem C8_digest_width_and_hex (bytes : List Nat) (m : String) (e : HashMethod)
    (he : hashInit m = some e) :
    (hashFinalizeHex (hashUpdate e bytes)).length =
      (if m = "md5" then 32 else if m = "sha1" then 40 else 16) ∧
    ∀ c ∈ (hashFinalizeHex (hashUpdate e bytes)).data, c ∈ ("0123456789abcdef").data := by
  unfold hashInit at he
  by_cases h1 : m = "md5"
  · rw [if_pos h1] at he
    injection he with he'
    subst he'
    obtain ⟨s', hs⟩ := hashUpdate_md5 md5Init bytes
    rw [hs, if_pos h1]
    constructor
    · show (hexOfBytes (md5Finalize s')).length = 32
      rw [hexOfBytes_length, md5Finalize_length]
    · intro c hc
      exact hexOfBytes_mem _ c hc
  rw [if_neg h1] at he
  by_cases h2 : m = "sha1"
  · rw [if_pos h2] at he
    injection he with he'
    subst he'
    obtain ⟨s', hs⟩ := hashUpdate_sha1 sha1Init bytes
    rw [hs, if_neg h1, if_pos h2]
    constructor
    · show (hexOfBytes (sha1Finalize s')).length = 40
      rw [hexOfBytes_length, sha1Finalize_length]
    · intro c hc
      exact hexOfBytes_mem _ c hc
  rw [if_neg h2] at he
  by_cases h3 : m = "xxhash64"
  · rw [if_pos h3] at he
    injection he with he'
    subst he'
    obtain ⟨s', hs⟩ := hashUpdate_xxh64 xxh64Init bytes
    rw [hs, if_neg h1, if_neg h2]
    constructor
    · show (hexOfBytes (be64 (xxh64Digest s'))).length = 16
      rw [hexOfBytes_length, be64_length]
    · intro c hc
      exact hexOfBytes_mem _ c hc
  · rw [if_neg h3] at he
    exact absurd he (by simp)

/-- Witness for C8 on the bytes of "abc" under md5. -/
theorem C8_witness :
    hashInit "md5" = some (.Md5 md5Init) ∧
    ((hashFinalizeHex (hashUpdate (.Md5 md5Init) [97, 98, 99])).length =
      (if "md5" = "md5" then 32 else if "md5" = "sha1" then 40 else 16) ∧
     ∀ c ∈ (hashFinalizeHex (hashUpdate (.Md5 md5Init) [97, 98, 99])).data,
       c ∈ ("0123456789abcdef").data) :=
  ⟨rfl, C8_digest_width_and_hex [97, 98, 99] "md5" (.Md5 md5Init) rfl⟩

/-- Claim C7: a preview (dry-run) invocation performs no filesystem mutation:
whatever the inputs and per-file environments, the destination file tree and
directory set after the run equal the initial ones and no manifest is written
(this holds whether the run completes or panics on a metadata unwrap). -/
theorem C7_dry_run_no_mutation (opts : Opts) (now : Nat) (files : List (SrcFile × FileEnv))
    (emptyDirs : List String) (fs0 : List (String × List Nat)) (dirs0 : List String)
    (mw : Bool) (hdry : opts.dryRun = true) :
    (runMain opts now files emptyDirs fs0 dirs0 mw).state.files = fs0 ∧
    (runMain opts now files emptyDirs fs0 dirs0 mw).state.dirs = dirs0 ∧
    (runMain opts now files emptyDirs fs0 dirs0 mw).manifestWritten = false := by
  have hst := runFiles_dry opts now hdry files
    { failed := [], mhl_data := [], copiedAnything := false, hadErrors := false,
      files := fs0, dirs := dirs0 }
  unfold runMain
  cases hres : runFiles opts now files
    { failed := [], mhl_data := [], copiedAnything := false, hadErrors := false,
      files := fs0, dirs := dirs0 } with
  | mk o st =>
    rw [hres] at hst
    have hst' : st =
        { failed := [], mhl_data := [], copiedAnything := false, hadErrors := false,
          files := fs0, dirs := dirs0 } := hst
    subst hst'
    cases o with
    | some ex => exact ⟨rfl, rfl, rfl⟩
    | none => simp [hdry, dirsAfter_dry opts hdry emptyDirs]

def c7wFile : SrcFile := { path := "f", content := [60], mtime := 0 }

/-- Witness for C7 at a concrete preview run with a pending copy and a pending
empty directory. -/
theorem C7_witness :
    ({ checksum := some "md5", mhl := true, dryRun := true } : Opts).dryRun = true ∧
    ((runMain { checksum := some "md5", mhl := true, dryRun := true } 0 [(c7wFile, envOk)]
        ["sub"] [("x", [1])] [] false).state.files = [("x", [1])] ∧
     (runMain { checksum := some "md5", mhl := true, dryRun := true } 0 [(c7wFile, envOk)]
        ["sub"] [("x", [1])] [] false).state.dirs = [] ∧
     (runMain { checksum := some "md5", mhl := true, dryRun := true } 0 [(c7wFile, envOk)]
        ["sub"] [("x", [1])] [] false).manifestWritten = false) :=
  ⟨rfl, C7_dry_run_no_mutation { checksum := some "md5", mhl := true, dryRun := true } 0
    [(c7wFile, envOk)] ["sub"] [("x", [1])] [] false rfl⟩

/-- Claim C9: every FileRecord that a non-preview step appends to the manifest
list carries as its checksum_method exactly the serialized identifier of the
algorithm (md5 for md5, sha1 for sha1, and xxhash64be -- not the in-memory name
xxhash64 -- for xxhash64), and the serialized manifest contains a checksum
element whose tag is that identifier. -/
theorem C9_manifest_tag (opts : Opts) (now : Nat) (st : RunState) (f : SrcFile)
    (env : FileEnv) (alg : String) (e : HashMethod) (st' : RunState) (r : FileMetadata)
    (name username hostname tool startDate finishDate : String)
    (hdry : opts.dryRun = false) (halg : opts.checksum = some alg)
    (he : hashInit alg = some e)
    (hstep : stepFile opts now st f env = .ok st')
    (hr : st'.mhl_data = st.mhl_data ++ [r]) :
    (alg = "md5" → r.checksum_method = "md5") ∧
    (alg = "sha1" → r.checksum_method = "sha1") ∧
    (alg = "xxhash64" → r.checksum_method = "xxhash64be") ∧
    XmlEvent.startElement r.checksum_method [] ∈
      write_mhl_v2 st'.mhl_data name username hostname tool startDate finishDate := by
  have hchar := stepFile_ok_char opts now st f env alg e st' hdry halg he hstep
  have hrec : r = verifiedRecord alg f now := by
    rcases hchar with ⟨hm, -, -⟩ | ⟨hm, -⟩
    · have h2 : st.mhl_data ++ [r] = st.mhl_data ++ [verifiedRecord alg f now] :=
        hr.symm.trans hm
      have h3 := List.append_cancel_left h2
      simpa using h3
    · rw [hm] at hr
      have hlen := congrArg List.length hr
      simp at hlen
  subst hrec
  refine ⟨?_, ?_, ?_, ?_⟩
  · intro ha
    subst ha
    rfl
  · intro ha
    subst ha
    rfl
  · intro ha
    subst ha
    rfl
  · refine mem_write_mhl_v2 _ _ ?_ name username hostname tool startDate finishDate
    rw [hr]
    exact List.mem_append_right _ (List.mem_singleton.mpr rfl)

def c9wFile : SrcFile := { path := "e", content := [51], mtime := 2 }

def c9wState : RunState :=
  { failed := [], mhl_data := [], copiedAnything := false, hadErrors := false,
    files := [("e", [51])], dirs := [] }

def c9wAfter : RunState := { c9wState with mhl_data := [verifiedRecord "xxhash64" c9wFile 2] }

/-- Witness for C9 at a concrete skip-verified xxhash64 file. -/
theorem C9_witness :
    ({ checksum := some "xxhash64", mhl := true, dryRun := false } : Opts).dryRun = false ∧
    ({ checksum := some "xxhash64", mhl := true, dryRun := false } : Opts).checksum
      = some "xxhash64" ∧
    hashInit "xxhash64" = some (.Xxh64 xxh64Init) ∧
    stepFile { checksum := some "xxhash64", mhl := true, dryRun := false } 2 c9wState
      c9wFile envOk = .ok c9wAfter ∧
    c9wAfter.mhl_data = c9wState.mhl_data ++ [verifiedRecord "xxhash64" c9wFile 2] ∧
    (("xxhash64" = "md5" →
        (verifiedRecord "xxhash64" c9wFile 2).checksum_method = "md5") ∧
     ("xxhash64" = "sha1" →
        (verifiedRecord "xxhash64" c9wFile 2).checksum_method = "sha1") ∧
     ("xxhash64" = "xxhash64" →
        (verifiedRecord "xxhash64" c9wFile 2).checksum_method = "xxhash64be") ∧
     XmlEvent.startElement (verifiedRecord "xxhash64" c9wFile 2).checksum_method [] ∈
       write_mhl_v2 c9wAfter.mhl_data "n" "u" "h" "t" "s" "fin") :=
  ⟨rfl, rfl, rfl, by decide, by decide,
   C9_manifest_tag { checksum := some "xxhash64", mhl := true, dryRun := false } 2 c9wState
     c9wFile envOk "xxhash64" (.Xxh64 xxh64Init) c9wAfter
     (verifiedRecord "xxhash64" c9wFile 2) "n" "u" "h" "t" "s" "fin"
     rfl rfl rfl (by decide) (by decide)⟩

/-- Claim C10: for a file skipped because the destination exists with equal
size, in a non-preview run with a valid algorithm and succeeding OS calls, the
step recomputes BOTH the source digest and the destination digest and branches
exactly on their equality: the record (carrying the fresh source digest) is
appended when the two digests agree, and the file goes to the failed list when
they differ -- the size match itself is never sufficient. -/
theorem C10_skip_recomputes_both (opts : Opts) (now : Nat) (st : RunState) (f : SrcFile)
    (env : FileEnv) (dc : List Nat) (alg : String) (e : HashMethod)
    (hdry : opts.dryRun = false) (halg : opts.checksum = some alg)
    (he : hashInit alg = some e)
    (hlk : fsLookup st.files f.path = some dc) (hlen : dc.length = f.content.length)
    (hm1 : env.destMetadataFails = false) (hm2 : env.srcMetadataFails = false)
    (h1 : env.srcOpenFails = false) (h2 : env.srcReadFails = false)
    (h3 : env.destOpenFails = false) (h4 : env.destReadFails = false) :
    stepFile opts now st f env =
      (if hashFinalizeHex (hashUpdate e f.content) = hashFinalizeHex (hashUpdate e dc) then
        .ok { st with mhl_data := st.mhl_data ++ [verifiedRecord alg f now] }
      else .ok { st with failed := st.failed ++ [f.path], hadErrors := true }) := by
  unfold stepFile
  rw [hlk]
  simp only [hm1, hm2, Bool.false_eq_true, if_false, if_pos hlen, hdry]
  exact skipStep_eval opts now st f env dc alg e halg he h1 h2 h3 h4

def c10wFile : SrcFile := { path := "g", content := [52], mtime := 1 }

def c10wState : RunState :=
  { failed := [], mhl_data := [], copiedAnything := false, hadErrors := false,
    files := [("g", [53])], dirs := [] }

/-- Witness for C10 at a destination file of equal size but different content. -/
theorem C10_witness :
    ({ checksum := some "xxhash64", mhl := false, dryRun := false } : Opts).dryRun = false ∧
    ({ checksum := some "xxhash64", mhl := false, dryRun := false } : Opts).checksum
      = some "xxhash64" ∧
    hashInit "xxhash64" = some (.Xxh64 xxh64Init) ∧
    fsLookup c10wState.files c10wFile.path = some [53] ∧
    ([53] : List Nat).length = c10wFile.content.length ∧
    stepFile { checksum := some "xxhash64", mhl := false, dryRun := false } 1 c10wState
      c10wFile envOk =
      (if hashFinalizeHex (hashUpdate (.Xxh64 xxh64Init) c10wFile.content) =
          hashFinalizeHex (hashUpdate (.Xxh64 xxh64Init) [53]) then
        .ok { c10wState with
                mhl_data := c10wState.mhl_data ++ [verifiedRecord "xxhash64" c10wFile 1] }
      else .ok { c10wState with
                   failed := c10wState.failed ++ [c10wFile.path], hadErrors := true }) :=
  ⟨rfl, rfl, rfl, by decide, rfl,
   C10_skip_recomputes_both { checksum := some "xxhash64", mhl := false, dryRun := false } 1
     c10wState c10wFile envOk [53] "xxhash64" (.Xxh64 xxh64Init)
     rfl rfl rfl (by decide) rfl rfl rfl rfl rfl rfl rfl⟩
